import Mathlib

/-!
Verification of the smart-bird-watcher image-fetch pipeline
(`scripts/fetch_images.py`, configuration in `config/config.py`) against its
natural-language specification.

The development shallowly embeds the pipeline:

* string manipulation is done on `List Char` (`String.data`) so that every
  definition is kernel-computable; Python `str.replace`, `str.lower`,
  f-string decimal formatting and `os.path.join` (POSIX, relative second
  component) get faithful char-list implementations;
* the per-species record/download construction of `process_species` is the
  triple nested `for` loop over pages, observations and photos, embedded as
  folds over the fetched page results with the explicit
  `image_counter`/`licensing_metadata`/`image_download_tasks` state;
* the network is an oracle: page fetches are a function from the query
  parameters to the parsed body (`PageQuery → FetchResult`), and image
  downloads are a function from a download task to an HTTP response or a
  transport failure;
* `asyncio.gather` keeps the results of its argument tasks in submission
  order, so the orchestrator `main` is embedded as a map over the species
  table followed by the `extend` accumulation loop;
* the `asyncio.Semaphore(1)` rate limiter of `fetch_page` is modelled
  temporally: a run yields one timed event per page fetch (permit
  acquisition, request start, request end, permit release on integer
  timestamps), constrained exactly as the code constrains it — the
  `API_REQUEST_INTERVAL` sleep happens after the response and before the
  permit is released, and the single permit makes held windows disjoint;
* the pandas ledger emission `pd.DataFrame(rows).to_csv(path, index=False)`
  is modelled by `dataFrameColumns` (union of the row-dict keys in first
  occurrence order, which is empty for an empty row list) and a `CsvFile`
  value.
-/

namespace FetchImages

/-! ### Char-list string primitives -/

/-- Concatenation of two strings at the `data` level (kernel-computable
version of `++`). -/
def strCat (a b : String) : String := ⟨a.data ++ b.data⟩

/-- Decimal digits of `n`, most significant first, computed with explicit
fuel (structural recursion, so the kernel can evaluate it). -/
def natChars : Nat → Nat → List Char
  | 0, _ => []
  | fuel+1, n =>
    if n < 10 then [Nat.digitChar n]
    else natChars fuel (n / 10) ++ [Nat.digitChar (n % 10)]

/-- Decimal rendering of a natural number, as a Python f-string renders it.
Fuel `n+1` always suffices because each step divides by `10`. -/
def natStr (n : Nat) : String := ⟨natChars (n + 1) n⟩

/-- Reads a digit string back to a number; left inverse of `natStr`, used
only to prove filename injectivity. -/
def parseNat (cs : List Char) : Nat :=
  cs.foldl (fun acc c => acc * 10 + (c.toNat - 48)) 0

/-- Tests whether the first list occurs at the head of the second. -/
def matchesAt : List Char → List Char → Bool
  | [], _ => true
  | _ :: _, [] => false
  | p :: ps, c :: cs => p = c && matchesAt ps cs

/-- Python `str.replace` scan: leftmost, non-overlapping, every occurrence
of the (here always non-empty) pattern is replaced.  Fuel-structural; each
step consumes at least one input character. -/
def replaceChars (pat rep : List Char) : Nat → List Char → List Char
  | _, [] => []
  | 0, s => s
  | fuel+1, c :: rest =>
    if matchesAt pat (c :: rest) then
      rep ++ replaceChars pat rep fuel (List.drop (pat.length - 1) rest)
    else
      c :: replaceChars pat rep fuel rest

/-- Python `s.replace(pat, rep)`.  Fuel `s.length` suffices: every
recursion step consumes at least one character of `s`. -/
def strReplace (s pat rep : String) : String :=
  ⟨replaceChars pat.data rep.data s.data.length s.data⟩

/-- POSIX `os.path.join(a, b)` for a relative second component, as used by
the script. -/
def pathJoin (a b : String) : String := ⟨a.data ++ '/' :: b.data⟩

/-- Embeds `re.sub(r"[- ]", "_", bird_name).lower()`: every hyphen or space
becomes an underscore, then the result is lowercased.  (`Char.toLower`
lowers ASCII letters; the Unicode-aware part of Python `str.lower` is
immaterial to every claim, which only need that this is a function of the
name.) -/
def bird_name_replace (bird_name : String) : String :=
  ⟨(bird_name.data.map (fun c => if c = '-' || c = ' ' then '_' else c)).map Char.toLower⟩

/-! ### Configuration (`config/config.py`) -/

def OBSERVATION_URL : String := "https://api.inaturalist.org/v1/observations"

/-- Cooldown seconds between API page requests (`API_REQUEST_INTERVAL = 5`).
Typed as an integer time quantity for the temporal rate-limiter model. -/
def API_REQUEST_INTERVAL : Int := 5

def PAGES_TO_FETCH : Nat := 2

def RAW_DATA_PATH : String := "../../datasets/data_original"

/-! ### Data model -/

/-- One photo object of an observation, as read by `process_species`.
Each field is optional because the code reads it with `dict.get` and a
default (`""` for `url` and `attribution`, `"unknown"` for
`license_code`). -/
structure Photo where
  url : Option String
  license_code : Option String
  attribution : Option String
deriving DecidableEq, Repr

/-- One observation object (`id`, `species_guess`, `photos`), every field
read with `dict.get` and a default (`""`, `""`, `[]`). -/
structure Observation where
  id : Option String
  species_guess : Option String
  photos : Option (List Photo)
deriving DecidableEq, Repr

/-- Parsed body of one page response.  `results := none` models a dict
without the `"results"` key. -/
structure PageResult where
  results : Option (List Observation)
deriving DecidableEq, Repr

/-- Result of one `fetch_page` call: `none` models a falsy value (`None` or
an empty dict), rejected by `if result and "results" in result`. -/
abbrev FetchResult := Option PageResult

/-- One row appended to `licensing_metadata`; fields in the dict insertion
order of the source. -/
structure LicensingRecord where
  observation_id : String
  species : String
  photo_url : String
  medium_url : String
  license_code : String
  attribution : String
  filename : String
deriving DecidableEq, Repr

/-- One queued `download_content(session, medium_url, filename)` call. -/
structure DownloadTask where
  url : String
  filename : String
deriving DecidableEq, Repr

/-- Query parameters built for one page fetch (the `params` dict of
`process_species`).  The bounding-box constants are the exact decimal
values of the source, as rationals. -/
structure PageQuery where
  taxon_id : Int
  photos : String
  per_page : Nat
  page : Nat
  photo_license : String
  swlat : ℚ
  swlng : ℚ
  nelat : ℚ
  nelng : ℚ
deriving DecidableEq, Repr

/-- One row of the species table `texas_birds.csv` (`bird_name`,
`taxon_id`). -/
structure SpeciesRow where
  bird_name : String
  taxon_id : Int
deriving DecidableEq, Repr

/-- Mutable state of the extraction loop of `process_species`. -/
structure SpeciesAcc where
  image_counter : Nat
  licensing_metadata : List LicensingRecord
  image_download_tasks : List DownloadTask
deriving DecidableEq, Repr

/-- Builds the `params` dict for one `(taxon_id, page)` pair. -/
def buildParams (taxon_id : Int) (page : Nat) : PageQuery :=
  { taxon_id := taxon_id
    photos := "true"
    per_page := 200
    page := page
    photo_license := "cc0,cc-by,cc-by-nc"
    swlat := 25.80
    swlng := -101.50
    nelat := 33.75
    nelng := -93.50 }

/-! ### The extraction loop of `process_species` -/

/-- Body of the innermost loop (`for photo in obs.get("photos", [])`):
reads `url`/`license_code`/`attribution` with their defaults and, when the
URL is non-empty, queues a download of the `square`→`medium` rewritten URL
to `os.path.join(species_dir, f"[slug]_[counter].jpg")`, appends the
licensing row (whose `filename` is the bare basename), and increments the
counter. -/
def photoStep (species_dir bird_name_slug species obs_id : String)
    (acc : SpeciesAcc) (photo : Photo) : SpeciesAcc :=
  let photo_url := photo.url.getD ""
  let license_code := photo.license_code.getD "unknown"
  let attribution := photo.attribution.getD ""
  if photo_url ≠ "" then
    let medium_url := strReplace photo_url "square" "medium"
    let basename := strCat (strCat (strCat bird_name_slug "_") (natStr acc.image_counter)) ".jpg"
    let filename := pathJoin species_dir basename
    { image_counter := acc.image_counter + 1
      licensing_metadata := acc.licensing_metadata ++
        [⟨obs_id, species, photo_url, medium_url, license_code, attribution, basename⟩]
      image_download_tasks := acc.image_download_tasks ++ [⟨medium_url, filename⟩] }
  else acc

/-- Body of the middle loop (`for obs in result["results"]`). -/
def obsStep (species_dir bird_name_slug : String) (acc : SpeciesAcc)
    (obs : Observation) : SpeciesAcc :=
  (obs.photos.getD []).foldl
    (photoStep species_dir bird_name_slug (obs.species_guess.getD "") (obs.id.getD "")) acc

/-- Body of the outer loop (`for result in results`), guarded by
`if result and "results" in result`. -/
def pageStep (species_dir bird_name_slug : String) (acc : SpeciesAcc)
    (result : FetchResult) : SpeciesAcc :=
  match result with
  | some page =>
    match page.results with
    | some obsList => obsList.foldl (obsStep species_dir bird_name_slug) acc
    | none => acc
  | none => acc

/-- Pure core of `process_species`: from the bird name and the already
fetched page results, the final counter, licensing rows and queued download
tasks.  The counter starts at 1 and the accumulators empty, exactly as in
the source. -/
def process_species (bird_name : String) (results : List FetchResult) : SpeciesAcc :=
  let slug := bird_name_replace bird_name
  let species_dir := pathJoin RAW_DATA_PATH slug
  results.foldl (pageStep species_dir slug) ⟨1, [], []⟩

/-! ### Effect trace of `process_species` -/

/-- Externally visible side effects of one `process_species` call, in
program order: the `os.makedirs(species_dir, exist_ok=True)` call, then the
page fetches, then the download attempts. -/
inductive Action where
  | mkdirs (path : String)
  | fetchPage (url : String) (query : PageQuery)
  | downloadAttempt (url : String) (filename : String)
deriving DecidableEq, Repr

/-- Side effects of `process_species` in program order: the directory is
created first (idempotently, `exist_ok=True`), before any fetch; the
download attempts follow the fetches. -/
def processSpeciesTrace (bird_name : String) (taxon_id : Int) (pages_to_fetch : Nat)
    (results : List FetchResult) : List Action :=
  let slug := bird_name_replace bird_name
  let species_dir := pathJoin RAW_DATA_PATH slug
  Action.mkdirs species_dir ::
    ((List.range' 1 pages_to_fetch).map (fun page => Action.fetchPage OBSERVATION_URL (buildParams taxon_id page)) ++
      (process_species bird_name results).image_download_tasks.map
        (fun t => Action.downloadAttempt t.url t.filename))

/-! ### `download_content` -/

/-- What the network/filesystem does for one download attempt: a transport
or IO exception, or an HTTP response with a status and an (opaque) body. -/
inductive DownloadResponse where
  | failure
  | response (status : Nat) (body : String)
deriving DecidableEq, Repr

/-- Observable outcome of one `download_content` call: the file written
with the body, or a logged non-200 status, or a logged exception.  There is
no constructor for a propagated exception: the `try`/`except` of the
source catches everything and returns normally. -/
inductive DownloadOutcome where
  | written (filename : String) (body : String)
  | statusLogged (url : String) (status : Nat)
  | errorLogged (url : String)
deriving DecidableEq, Repr

/-- Embeds `download_content`: writes the body to `filename` exactly when
the status is 200; any other status is logged; any exception is caught and
logged. -/
def download_content (url filename : String) : DownloadResponse → DownloadOutcome
  | .failure => .errorLogged url
  | .response status body =>
    if status = 200 then .written filename body else .statusLogged url status

/-- Runs every queued download against the network oracle `net`.  Each
task's outcome depends only on that task, so no outcome can suppress a
sibling attempt. -/
def runDownloads (tasks : List DownloadTask) (net : DownloadTask → DownloadResponse) :
    List DownloadOutcome :=
  tasks.map (fun t => download_content t.url t.filename (net t))

/-! ### The orchestrator `main` -/

/-- Page results fetched for one species: one `fetch_page` per page number
`1..pages_to_fetch`, against the API oracle. -/
def fetchResultsFor (api : PageQuery → FetchResult) (taxon_id : Int)
    (pages_to_fetch : Nat) : List FetchResult :=
  (List.range' 1 pages_to_fetch).map (fun page => api (buildParams taxon_id page))

/-- One species task of `main`: fetch the pages, then run the extraction
loop of `process_species`. -/
def processSpeciesRun (api : PageQuery → FetchResult) (pages_to_fetch : Nat)
    (row : SpeciesRow) : SpeciesAcc :=
  process_species row.bird_name (fetchResultsFor api row.taxon_id pages_to_fetch)

/-- Result of one whole `main` run before CSV serialization. -/
structure PipelineRun where
  all_licensing : List LicensingRecord
  licensing_csv : String
  downloadOutcomes : List DownloadOutcome
deriving Repr

/-- Embeds `main` up to CSV writing: one `process_species` task per species
row, gathered in submission order (`asyncio.gather` keeps task order), then
the `all_licensing.extend(metadata)` loop.  `net` resolves the download
attempts; it influences only the outcomes, never the records. -/
def runPipeline (birds : List SpeciesRow) (api : PageQuery → FetchResult)
    (pages_to_fetch : Nat) (net : DownloadTask → DownloadResponse) : PipelineRun :=
  let results := birds.map (processSpeciesRun api pages_to_fetch)
  { all_licensing := results.foldl (fun acc r => acc ++ r.licensing_metadata) []
    licensing_csv := pathJoin RAW_DATA_PATH "attribution_credit.csv"
    downloadOutcomes := results.foldl
      (fun acc r => acc ++ runDownloads r.image_download_tasks net) [] }

/-! ### Ledger serialization (`pd.DataFrame(...).to_csv(..., index=False)`) -/

/-- Key/value pairs of one licensing dict, in the insertion order of the
source. -/
def recordRow (r : LicensingRecord) : List (String × String) :=
  [("observation_id", r.observation_id), ("species", r.species),
   ("photo_url", r.photo_url), ("medium_url", r.medium_url),
   ("license_code", r.license_code), ("attribution", r.attribution),
   ("filename", r.filename)]

/-- Column accumulation of `pd.DataFrame(list_of_dicts)`: the keys of the
next row dict that are not yet columns are appended, in key order. -/
def dfStep (cols : List String) (row : List (String × String)) : List String :=
  cols ++ (row.map Prod.fst).filter (fun k => ¬ cols.contains k)

/-- Columns of `pd.DataFrame(list_of_dicts)`: the union of the row keys in
first-occurrence order.  For an empty list the frame has no columns. -/
def dataFrameColumns (rows : List (List (String × String))) : List String :=
  rows.foldl dfStep []

/-- The written ledger file: its path, header and data rows. -/
structure CsvFile where
  path : String
  columns : List String
  rows : List (List String)
deriving Repr

/-- The single ledger file `main` writes at the raw-data root. -/
def mainCsv (birds : List SpeciesRow) (api : PageQuery → FetchResult)
    (pages_to_fetch : Nat) (net : DownloadTask → DownloadResponse) : CsvFile :=
  let run := runPipeline birds api pages_to_fetch net
  { path := run.licensing_csv
    columns := dataFrameColumns (run.all_licensing.map recordRow)
    rows := run.all_licensing.map (fun r => (recordRow r).map Prod.snd) }

/-! ### Specification-side views of the extraction loop -/

/-- Observations an element of `results` contributes: those of its
`"results"` list when the page passes the guard
`if result and "results" in result`, none otherwise. -/
def pageObs : FetchResult → List Observation
  | some page =>
    match page.results with
    | some obsList => obsList
    | none => []
  | none => []

/-- Photos of one observation, each paired with its observation, in photo
order. -/
def obsPairs (obs : Observation) : List (Observation × Photo) :=
  (obs.photos.getD []).map (fun p => (obs, p))

/-- Every `(observation, photo)` pair the loop encounters, in encounter
order: page order, then observation order within a page, then photo order
within an observation. -/
def encounteredPhotos (results : List FetchResult) : List (Observation × Photo) :=
  ((results.map pageObs).flatten.map obsPairs).flatten

/-- Guard of the innermost loop: the photo URL (after the `""` default) is
non-empty. -/
def keptB (op : Observation × Photo) : Bool := op.2.url.getD "" != ""

/-- The encountered photos that pass the non-empty-URL guard, in encounter
order. -/
def keptPhotos (results : List FetchResult) : List (Observation × Photo) :=
  (encounteredPhotos results).filter keptB

/-- The bare basename `f"[slug]_[idx].jpg"` given to record number `idx`. -/
def basenameFor (bird_name_slug : String) (idx : Nat) : String :=
  strCat (strCat (strCat bird_name_slug "_") (natStr idx)) ".jpg"

/-- The licensing row the loop builds for photo `photo` of observation
`obs` at counter value `idx`. -/
def mkRecord (bird_name_slug : String) (idx : Nat) (obs : Observation) (photo : Photo) :
    LicensingRecord :=
  ⟨obs.id.getD "", obs.species_guess.getD "", photo.url.getD "",
   strReplace (photo.url.getD "") "square" "medium",
   photo.license_code.getD "unknown", photo.attribution.getD "",
   basenameFor bird_name_slug idx⟩

/-- The download task the loop queues for photo `photo` at counter value
`idx`. -/
def mkTask (species_dir bird_name_slug : String) (idx : Nat) (photo : Photo) : DownloadTask :=
  ⟨strReplace (photo.url.getD "") "square" "medium",
   pathJoin species_dir (basenameFor bird_name_slug idx)⟩

/-- `photoStep` reformulated on `(observation, photo)` pairs; the two inner
loops of the source fold this over the encountered pairs. -/
def pairStep (species_dir bird_name_slug : String) (acc : SpeciesAcc)
    (op : Observation × Photo) : SpeciesAcc :=
  photoStep species_dir bird_name_slug (op.1.species_guess.getD "") (op.1.id.getD "")
    acc op.2

/-- Licensing rows produced from a pair list, starting at counter `idx`. -/
def pairRecords (bird_name_slug : String) (idx : Nat) :
    List (Observation × Photo) → List LicensingRecord
  | [] => []
  | op :: rest =>
    if keptB op then
      mkRecord bird_name_slug idx op.1 op.2 :: pairRecords bird_name_slug (idx + 1) rest
    else pairRecords bird_name_slug idx rest

/-- Download tasks produced from a pair list, starting at counter `idx`. -/
def pairTasks (species_dir bird_name_slug : String) (idx : Nat) :
    List (Observation × Photo) → List DownloadTask
  | [] => []
  | op :: rest =>
    if keptB op then
      mkTask species_dir bird_name_slug idx op.2 ::
        pairTasks species_dir bird_name_slug (idx + 1) rest
    else pairTasks species_dir bird_name_slug idx rest

/-- Pages that contribute nothing: a falsy fetch result, a dict without the
`"results"` key, or a `"results"` list with zero observations. -/
def emptyPage (r : FetchResult) : Prop :=
  r = none ∨ r = some ⟨none⟩ ∨ r = some ⟨some []⟩

/-! ### Temporal model of the `asyncio.Semaphore(1)` rate limiter -/

/-- Timestamps (integer seconds) of one `fetch_page` call: permit
acquisition, HTTP request start, response completion, permit release. -/
structure FetchEvent where
  acquireTime : Int
  requestStart : Int
  requestEnd : Int
  releaseTime : Int
deriving DecidableEq, Repr

/-- Constraints the body of `fetch_page` puts on one event: the request
runs inside the held permit, and `asyncio.sleep(API_REQUEST_INTERVAL)` runs
after the response and before the permit is released (the `async with
semaphore` block encloses both the GET and the sleep). -/
abbrev eventWF (e : FetchEvent) : Prop :=
  e.acquireTime ≤ e.requestStart ∧ e.requestStart ≤ e.requestEnd ∧
    e.requestEnd + API_REQUEST_INTERVAL ≤ e.releaseTime

/-- Semantics of the single shared `asyncio.Semaphore(1)`: two held-permit
windows never overlap. -/
abbrev mutualExclusion (events : List FetchEvent) : Prop :=
  events.Pairwise (fun a b => a.releaseTime ≤ b.acquireTime ∨ b.releaseTime ≤ a.acquireTime)

/-- A run of page fetches permitted by the code: every event obeys the
body of `fetch_page` and the shared semaphore serializes the held
windows. -/
abbrev rateLimitedTrace (events : List FetchEvent) : Prop :=
  (∀ e ∈ events, eventWF e) ∧ mutualExclusion events

/-! ### Concrete fixtures used by witnesses and counterexamples -/

/-- Typical iNaturalist thumbnail photo with all optional fields present. -/
def samplePhoto : Photo :=
  ⟨some "https://inaturalist-open-data.s3.amazonaws.com/photos/1/square.jpg",
   some "cc0", some "(c) observer, some rights reserved"⟩

def sampleObservation : Observation :=
  ⟨some "1234", some "Northern Cardinal", some [samplePhoto]⟩

def samplePage : FetchResult := some ⟨some [sampleObservation]⟩

/-- API oracle that answers every page query with `samplePage`. -/
def sampleApi : PageQuery → FetchResult := fun _ => samplePage

/-- API oracle that answers every page query with a falsy body. -/
def noneApi : PageQuery → FetchResult := fun _ => none

/-- Network oracle on which every download raises a transport error. -/
def failNet : DownloadTask → DownloadResponse := fun _ => .failure

/-- Network oracle on which every download yields HTTP 200. -/
def okNet : DownloadTask → DownloadResponse := fun _ => .response 200 "imagebytes"

/-- Photo whose URL contains the substring `square` in the host as well as
in the sizing token. -/
def hostSquarePhoto : Photo :=
  ⟨some "https://static.squarespace.example/photos/7/square.jpg",
   some "cc-by", some "(c) someone"⟩

def hostSquareObs : Observation := ⟨some "7", some "Blue Jay", some [hostSquarePhoto]⟩

def hostSquarePage : FetchResult := some ⟨some [hostSquareObs]⟩

def hostSquareRecord : LicensingRecord :=
  mkRecord (bird_name_replace "Blue Jay") 1 hostSquareObs hostSquarePhoto

/-- Photo lacking the optional `license_code` and `attribution` keys,
inside an observation lacking `id` and `species_guess`. -/
def bareLicensePhoto : Photo := ⟨some "https://example.org/p/square.jpg", none, none⟩

def bareObs : Observation := ⟨none, none, some [bareLicensePhoto]⟩

def barePage : FetchResult := some ⟨some [bareObs]⟩

def bareRecord : LicensingRecord :=
  mkRecord (bird_name_replace "Wood Stork") 1 bareObs bareLicensePhoto

/-! ### Helper lemmas: decimal rendering is injective -/

theorem parseNat_natChars (fuel n : Nat) (h : n < fuel) : parseNat (natChars fuel n) = n := by
  induction fuel generalizing n with
  | zero => omega
  | succ fuel ih =>
    rw [natChars]
    by_cases h10 : n < 10
    · simp only [if_pos h10, parseNat, List.foldl]
      have : (Nat.digitChar n).toNat - 48 = n := by interval_cases n <;> decide
      omega
    · simp only [if_neg h10]
      have hdiv : n / 10 < fuel := by omega
      have := ih (n / 10) hdiv
      simp only [parseNat, List.foldl_append, List.foldl] at *
      have hmod : (Nat.digitChar (n % 10)).toNat - 48 = n % 10 := by
        have hlt : n % 10 < 10 := Nat.mod_lt _ (by omega)
        interval_cases h : n % 10 <;> simp_all <;> decide
      omega

theorem natStr_data_inj {a b : Nat} (h : (natStr a).data = (natStr b).data) : a = b := by
  have ha := parseNat_natChars (a + 1) a (Nat.lt_succ_self a)
  have hb := parseNat_natChars (b + 1) b (Nat.lt_succ_self b)
  simp only [natStr] at h
  rw [h] at ha
  omega

theorem basenameFor_inj (slug : String) : Function.Injective (basenameFor slug) := by
  intro i j h
  have hdata := congrArg String.data h
  simp only [basenameFor, strCat] at hdata
  have h1 := List.append_cancel_right hdata
  have h2 := List.append_cancel_left h1
  exact natStr_data_inj h2

/-! ### Helper lemmas: the nested loops as one fold over encountered pairs -/

theorem pairStep_kept (species_dir slug : String) (acc : SpeciesAcc)
    (op : Observation × Photo) (h : keptB op = true) :
    pairStep species_dir slug acc op =
      ⟨acc.image_counter + 1,
       acc.licensing_metadata ++ [mkRecord slug acc.image_counter op.1 op.2],
       acc.image_download_tasks ++ [mkTask species_dir slug acc.image_counter op.2]⟩ := by
  simp only [keptB, bne_iff_ne, ne_eq] at h
  simp [pairStep, photoStep, h, mkRecord, mkTask, basenameFor]

theorem pairStep_skip (species_dir slug : String) (acc : SpeciesAcc)
    (op : Observation × Photo) (h : keptB op = false) :
    pairStep species_dir slug acc op = acc := by
  rw [keptB, bne_eq_false_iff_eq] at h
  simp [pairStep, photoStep, h]

theorem foldl_pairStep (species_dir slug : String) (pairs : List (Observation × Photo))
    (acc : SpeciesAcc) :
    List.foldl (pairStep species_dir slug) acc pairs =
      ⟨acc.image_counter + pairs.countP keptB,
       acc.licensing_metadata ++ pairRecords slug acc.image_counter pairs,
       acc.image_download_tasks ++ pairTasks species_dir slug acc.image_counter pairs⟩ := by
  induction pairs generalizing acc with
  | nil => simp [pairRecords, pairTasks]
  | cons op rest ih =>
    rcases hk : keptB op with hfalse | htrue
    · rw [List.foldl_cons, pairStep_skip _ _ _ _ hk, ih, pairRecords, pairTasks,
        if_neg (by simp [hk]), if_neg (by simp [hk])]
      simp [List.countP_cons, hk]
    · rw [List.foldl_cons, pairStep_kept _ _ _ _ hk, ih, pairRecords, pairTasks,
        if_pos (by simp [hk]), if_pos (by simp [hk])]
      simp only [SpeciesAcc.mk.injEq]
      refine ⟨by simp [List.countP_cons, hk]; omega, ?_, ?_⟩ <;>
        simp [List.append_assoc]

theorem obsStep_eq (species_dir slug : String) (acc : SpeciesAcc) (obs : Observation) :
    obsStep species_dir slug acc obs = List.foldl (pairStep species_dir slug) acc (obsPairs obs) := by
  rw [obsPairs, List.foldl_map]
  rfl

theorem pageStep_eq (species_dir slug : String) (acc : SpeciesAcc) (r : FetchResult) :
    pageStep species_dir slug acc r =
      List.foldl (pairStep species_dir slug) acc ((pageObs r).map obsPairs).flatten := by
  match r with
  | none => rfl
  | some ⟨none⟩ => rfl
  | some ⟨some obsList⟩ =>
    show List.foldl (obsStep species_dir slug) acc obsList = _
    rw [List.foldl_flatten, List.foldl_map]
    have : (fun (a : SpeciesAcc) (o : Observation) => List.foldl (pairStep species_dir slug) a (obsPairs o)) =
        obsStep species_dir slug := by
      funext a o
      exact (obsStep_eq species_dir slug a o).symm
    rw [this]
    rfl

theorem encounteredPhotos_cons (r : FetchResult) (rest : List FetchResult) :
    encounteredPhotos (r :: rest) =
      ((pageObs r).map obsPairs).flatten ++ encounteredPhotos rest := by
  simp [encounteredPhotos, List.flatten_append]

theorem foldl_pageStep_eq (species_dir slug : String) (results : List FetchResult)
    (acc : SpeciesAcc) :
    List.foldl (pageStep species_dir slug) acc results =
      List.foldl (pairStep species_dir slug) acc (encounteredPhotos results) := by
  induction results generalizing acc with
  | nil => rfl
  | cons r rest ih =>
    rw [List.foldl_cons, ih, encounteredPhotos_cons, List.foldl_append, pageStep_eq]

theorem process_species_char (bird_name : String) (results : List FetchResult) :
    process_species bird_name results =
      ⟨1 + (encounteredPhotos results).countP keptB,
       pairRecords (bird_name_replace bird_name) 1 (encounteredPhotos results),
       pairTasks (pathJoin RAW_DATA_PATH (bird_name_replace bird_name))
         (bird_name_replace bird_name) 1 (encounteredPhotos results)⟩ := by
  rw [process_species, foldl_pageStep_eq, foldl_pairStep]
  simp

/-! ### Helper lemmas: shape of the produced records and tasks -/

theorem pairRecords_length (slug : String) (pairs : List (Observation × Photo)) (idx : Nat) :
    (pairRecords slug idx pairs).length = pairs.countP keptB := by
  induction pairs generalizing idx with
  | nil => rfl
  | cons op rest ih =>
    rw [pairRecords, List.countP_cons]
    rcases hk : keptB op with hfalse | htrue
    · rw [if_neg (by simp [hk])]
      simp [ih, hk]
    · rw [if_pos (by simp [hk])]
      simp [ih, hk]

theorem pairRecords_filenames (slug : String) (pairs : List (Observation × Photo)) (idx : Nat) :
    (pairRecords slug idx pairs).map (fun r => r.filename) =
      (List.range' idx (pairs.countP keptB)).map (basenameFor slug) := by
  induction pairs generalizing idx with
  | nil => rfl
  | cons op rest ih =>
    rw [pairRecords, List.countP_cons]
    rcases hk : keptB op with hfalse | htrue
    · rw [if_neg (by simp [hk])]
      simp [ih, hk]
    · rw [if_pos (by simp [hk])]
      simp only [hk, if_pos]
      rw [List.map_cons, ih]
      have : rest.countP keptB + 1 = rest.countP keptB + 1 := rfl
      simp [List.range'_succ, mkRecord]

theorem pairRecords_photo_urls (slug : String) (pairs : List (Observation × Photo)) (idx : Nat) :
    (pairRecords slug idx pairs).map (fun r => r.photo_url) =
      (pairs.filter keptB).map (fun op => op.2.url.getD "") := by
  induction pairs generalizing idx with
  | nil => rfl
  | cons op rest ih =>
    rw [pairRecords, List.filter_cons]
    rcases hk : keptB op with hfalse | htrue
    · rw [if_neg (by simp [hk]), if_neg (by simp [hk])]
      exact ih idx
    · rw [if_pos (by simp [hk]), if_pos (by simp [hk])]
      rw [List.map_cons, List.map_cons, ih]
      rfl

theorem pairTasks_eq_map (species_dir slug : String) (pairs : List (Observation × Photo))
    (idx : Nat) :
    pairTasks species_dir slug idx pairs =
      (pairRecords slug idx pairs).map
        (fun r => ⟨r.medium_url, pathJoin species_dir r.filename⟩) := by
  induction pairs generalizing idx with
  | nil => rfl
  | cons op rest ih =>
    rw [pairTasks, pairRecords]
    rcases hk : keptB op with hfalse | htrue
    · rw [if_neg (by simp [hk]), if_neg (by simp [hk])]
      exact ih idx
    · rw [if_pos (by simp [hk]), if_pos (by simp [hk])]
      rw [List.map_cons, ih]
      rfl

theorem pairRecords_mem (slug : String) (pairs : List (Observation × Photo)) (idx : Nat)
    (r : LicensingRecord) (hr : r ∈ pairRecords slug idx pairs) :
    ∃ op, op ∈ pairs ∧ keptB op = true ∧ ∃ j, r = mkRecord slug j op.1 op.2 := by
  induction pairs generalizing idx with
  | nil => simp [pairRecords] at hr
  | cons op rest ih =>
    rw [pairRecords] at hr
    rcases hk : keptB op with hfalse | htrue
    · rw [if_neg (by simp [hk])] at hr
      obtain ⟨op', h1, h2, h3⟩ := ih idx hr
      exact ⟨op', List.mem_cons_of_mem _ h1, h2, h3⟩
    · rw [if_pos (by simp [hk])] at hr
      rcases List.mem_cons.mp hr with heq | htail
      · exact ⟨op, List.mem_cons_self _ _, hk, idx, heq⟩
      · obtain ⟨op', h1, h2, h3⟩ := ih (idx + 1) htail
        exact ⟨op', List.mem_cons_of_mem _ h1, h2, h3⟩

/-! ### Helper lemmas: the `extend` accumulation of `main` -/

theorem foldl_extend {α β : Type} (f : α → List β) (l : List α) (acc : List β) :
    l.foldl (fun a x => a ++ f x) acc = acc ++ (l.map f).flatten := by
  induction l generalizing acc with
  | nil => simp
  | cons x rest ih =>
    rw [List.foldl_cons, ih]
    simp

theorem runPipeline_all_licensing (birds : List SpeciesRow) (api : PageQuery → FetchResult)
    (pages_to_fetch : Nat) (net : DownloadTask → DownloadResponse) :
    (runPipeline birds api pages_to_fetch net).all_licensing =
      (birds.map (fun row => (processSpeciesRun api pages_to_fetch row).licensing_metadata)).flatten := by
  rw [runPipeline]
  rw [foldl_extend]
  simp [List.map_map]
  rfl

theorem runDownloads_length (tasks : List DownloadTask) (net : DownloadTask → DownloadResponse) :
    (runDownloads tasks net).length = tasks.length := by
  simp [runDownloads]

theorem foldl_runDownloads_length (net : DownloadTask → DownloadResponse)
    (rs : List SpeciesAcc) (acc : List DownloadOutcome) :
    (List.foldl (fun a r => a ++ runDownloads r.image_download_tasks net) acc rs).length =
      acc.length + (rs.map (fun r => r.image_download_tasks.length)).sum := by
  induction rs generalizing acc with
  | nil => simp
  | cons r rest ih =>
    rw [List.foldl_cons, ih]
    simp [runDownloads_length]
    omega

theorem runPipeline_outcomes_length (birds : List SpeciesRow) (api : PageQuery → FetchResult)
    (pages_to_fetch : Nat) (net : DownloadTask → DownloadResponse) :
    (runPipeline birds api pages_to_fetch net).downloadOutcomes.length =
      ((birds.map (fun row => (processSpeciesRun api pages_to_fetch row).image_download_tasks.length)).sum) := by
  rw [runPipeline]
  show (List.foldl (fun a r => a ++ runDownloads r.image_download_tasks net) []
      (birds.map (processSpeciesRun api pages_to_fetch))).length = _
  rw [foldl_runDownloads_length]
  simp [List.map_map]
  rfl

/-! ### Helper lemmas: pandas column derivation for uniform rows -/

theorem recordRow_keys (r : LicensingRecord) :
    (recordRow r).map Prod.fst =
      ["observation_id", "species", "photo_url", "medium_url", "license_code",
       "attribution", "filename"] := rfl

theorem dfStep_nil (r : LicensingRecord) :
    dfStep [] (recordRow r) =
      ["observation_id", "species", "photo_url", "medium_url", "license_code",
       "attribution", "filename"] := by
  rw [dfStep, recordRow_keys]
  decide

theorem dfStep_full (r : LicensingRecord) :
    dfStep ["observation_id", "species", "photo_url", "medium_url", "license_code",
       "attribution", "filename"] (recordRow r) =
      ["observation_id", "species", "photo_url", "medium_url", "license_code",
       "attribution", "filename"] := by
  rw [dfStep, recordRow_keys]
  decide

theorem foldl_dfStep_full (rest : List LicensingRecord) :
    List.foldl dfStep
      ["observation_id", "species", "photo_url", "medium_url", "license_code",
       "attribution", "filename"] (rest.map recordRow) =
      ["observation_id", "species", "photo_url", "medium_url", "license_code",
       "attribution", "filename"] := by
  induction rest with
  | nil => rfl
  | cons r2 rest2 ih =>
    rw [List.map_cons, List.foldl_cons, dfStep_full]
    exact ih

theorem dataFrameColumns_uniform (records : List LicensingRecord) (hne : records ≠ []) :
    dataFrameColumns (records.map recordRow) =
      ["observation_id", "species", "photo_url", "medium_url", "license_code",
       "attribution", "filename"] := by
  match records with
  | [] => exact absurd rfl hne
  | r :: rest =>
    rw [dataFrameColumns, List.map_cons, List.foldl_cons, dfStep_nil]
    exact foldl_dfStep_full rest

theorem process_species_records_length (bird_name : String) (results : List FetchResult) :
    (process_species bird_name results).licensing_metadata.length = (keptPhotos results).length := by
  rw [process_species_char]
  show (pairRecords _ 1 _).length = _
  rw [pairRecords_length, keptPhotos, List.countP_eq_length_filter]

/-! ### Claim theorems -/

/-- C1: in every run permitted by the rate limiter, the
HTTP-request-plus-cooldown windows of any two page fetches are disjoint —
one request can start only once at least `API_REQUEST_INTERVAL` has elapsed
after the other request completed — and, more strongly, only after the
other fetch released the permit.  The cooldown sleep sits inside the held
single-permit window, so the next waiter cannot start earlier. -/
theorem C1_rate_limiter_serializes (events : List FetchEvent) (h : rateLimitedTrace events) :
    events.Pairwise (fun a b =>
      (a.requestEnd + API_REQUEST_INTERVAL ≤ b.requestStart ∨
        b.requestEnd + API_REQUEST_INTERVAL ≤ a.requestStart) ∧
      (a.releaseTime ≤ b.requestStart ∨ b.releaseTime ≤ a.requestStart)) := by
  obtain ⟨hwf, hex⟩ := h
  refine List.Pairwise.imp_of_mem ?_ hex
  intro a b ha hb hab
  obtain ⟨ha1, ha2, ha3⟩ := hwf a ha
  obtain ⟨hb1, hb2, hb3⟩ := hwf b hb
  rcases hab with hab | hab
  · exact ⟨Or.inl (by omega), Or.inl (by omega)⟩
  · exact ⟨Or.inr (by omega), Or.inr (by omega)⟩

/-- Witness for C1: a concrete two-fetch run satisfying the rate-limiter
trace constraints, and its serialized conclusion. -/
theorem C1_rate_limiter_serializes_witness :
    rateLimitedTrace [⟨0, 0, 1, 6⟩, ⟨6, 7, 8, 13⟩] ∧
    List.Pairwise (fun a b : FetchEvent =>
      (a.requestEnd + API_REQUEST_INTERVAL ≤ b.requestStart ∨
        b.requestEnd + API_REQUEST_INTERVAL ≤ a.requestStart) ∧
      (a.releaseTime ≤ b.requestStart ∨ b.releaseTime ≤ a.requestStart))
      [⟨0, 0, 1, 6⟩, ⟨6, 7, 8, 13⟩] :=
  ⟨by decide, C1_rate_limiter_serializes _ (by decide)⟩

/-- C2: the number of licensing records `process_species` returns equals
the number of photos with a non-empty URL encountered across all fetched
pages; one download is queued per record, and every queued download is
attempted (one outcome per record) whatever the network does — so records
are emitted independently of download success. -/
theorem C2_record_count (bird_name : String) (results : List FetchResult) :
    (process_species bird_name results).licensing_metadata.length = (keptPhotos results).length ∧
    (process_species bird_name results).image_download_tasks.length =
      (process_species bird_name results).licensing_metadata.length ∧
    ∀ net : DownloadTask → DownloadResponse,
      (runDownloads (process_species bird_name results).image_download_tasks net).length =
        (process_species bird_name results).licensing_metadata.length := by
  refine ⟨process_species_records_length bird_name results, ?_, ?_⟩
  · rw [process_species_char]
    show (pairTasks _ _ 1 _).length = (pairRecords _ 1 _).length
    rw [pairTasks_eq_map, List.length_map]
  · intro net
    rw [runDownloads_length, process_species_char]
    show (pairTasks _ _ 1 _).length = (pairRecords _ 1 _).length
    rw [pairTasks_eq_map, List.length_map]

/-- C3: within one species the assigned filenames are exactly
`[slug]_1.jpg` through `[slug]_N.jpg` in encounter order (page order, then
observation order, then photo order — the order of `keptPhotos`), they are
pairwise distinct, and the k-th record belongs to the k-th kept photo. -/
theorem C3_filenames_contiguous (bird_name : String) (results : List FetchResult) :
    ((process_species bird_name results).licensing_metadata.map (fun r => r.filename)) =
      (List.range' 1 (keptPhotos results).length).map (basenameFor (bird_name_replace bird_name)) ∧
    ((process_species bird_name results).licensing_metadata.map (fun r => r.filename)).Nodup ∧
    ((process_species bird_name results).licensing_metadata.map (fun r => r.photo_url)) =
      (keptPhotos results).map (fun op => op.2.url.getD "") := by
  have hcount : (keptPhotos results).length = (encounteredPhotos results).countP keptB := by
    rw [keptPhotos, List.countP_eq_length_filter]
  rw [process_species_char]
  refine ⟨?_, ?_, ?_⟩
  · show (pairRecords _ 1 _).map _ = _
    rw [pairRecords_filenames, hcount]
  · show ((pairRecords _ 1 _).map _).Nodup
    rw [pairRecords_filenames]
    exact (List.nodup_range' 1 _).map (basenameFor_inj _)
  · show (pairRecords _ 1 _).map _ = _
    rw [pairRecords_photo_urls, keptPhotos]

/-- C4: every queued download is attempted and its outcome depends only on
its own task and response — a failure at position k cannot suppress any
other attempt — and `download_content` writes the file exactly when the
HTTP status is 200; every other status and every exception yields a logged
outcome (the model's outcome type has no propagated-exception case because
the try/except of the source catches everything). -/
theorem C4_download_isolation (tasks : List DownloadTask) (net : DownloadTask → DownloadResponse) :
    (runDownloads tasks net).length = tasks.length ∧
    (∀ k : Nat, (runDownloads tasks net)[k]? =
      (tasks[k]?).map (fun t => download_content t.url t.filename (net t))) ∧
    (∀ url filename : String, ∀ resp : DownloadResponse,
      ((∃ body, download_content url filename resp = .written filename body) ↔
        ∃ body, resp = DownloadResponse.response 200 body)) := by
  refine ⟨runDownloads_length tasks net, ?_, ?_⟩
  · intro k
    rw [runDownloads, List.getElem?_map]
  · intro url filename resp
    constructor
    · rintro ⟨body, hb⟩
      match resp with
      | .failure => exact absurd hb (by simp [download_content])
      | .response status b =>
        by_cases hs : status = 200
        · exact ⟨b, by rw [hs]⟩
        · rw [download_content, if_neg hs] at hb
          exact absurd hb (by simp)
    · rintro ⟨body, rfl⟩
      exact ⟨body, by rw [download_content, if_pos rfl]⟩

/-- C5 counterexample: Python `str.replace("square", "medium")` replaces
every occurrence of the substring, not only the sizing token — on a URL
whose host also contains `square`, the recorded and downloaded medium URL
has a rewritten host, so it is not the original URL with only the sizing
token replaced. -/
theorem C5_sizing_token_counterexample :
    ((process_species "Blue Jay" [hostSquarePage]).licensing_metadata.map (fun r => r.medium_url)) =
      ["https://static.mediumspace.example/photos/7/medium.jpg"] ∧
    ((process_species "Blue Jay" [hostSquarePage]).licensing_metadata.map (fun r => r.medium_url)) ≠
      ["https://static.squarespace.example/photos/7/medium.jpg"] := by
  decide

/-- C5 (amended): the medium URL recorded and used for the download is the
original photo URL with every occurrence of the substring `square`
replaced by `medium` (Python `str.replace`); when `square` occurs only as
the sizing token, only the sizing token is affected. -/
theorem C5_medium_url_replacement (bird_name : String) (results : List FetchResult)
    (r : LicensingRecord)
    (hr : r ∈ (process_species bird_name results).licensing_metadata) :
    r.medium_url = strReplace r.photo_url "square" "medium" := by
  rw [process_species_char] at hr
  obtain ⟨op, hmem, hkept, j, rfl⟩ := pairRecords_mem _ _ _ _ hr
  rfl

/-- Witness for C5 (amended) at the host-square fixture. -/
theorem C5_medium_url_replacement_witness :
    hostSquareRecord.medium_url = strReplace hostSquareRecord.photo_url "square" "medium" :=
  C5_medium_url_replacement "Blue Jay" [hostSquarePage] hostSquareRecord (by decide)

/-- C6: a fetched page that is falsy, lacks the `results` key, or has an
empty observation list contributes zero records and zero download attempts
without failing the species — deleting it from the result list does not
change the output of `process_species` — and the species directory
creation is the first effect of the run, before any fetch, so it happens
regardless. -/
theorem C6_empty_page_contributes_nothing (bird_name : String) (taxon_id : Int)
    (pages_to_fetch : Nat) (pre post : List FetchResult) (p : FetchResult)
    (hp : emptyPage p) :
    process_species bird_name (pre ++ p :: post) = process_species bird_name (pre ++ post) ∧
    (processSpeciesTrace bird_name taxon_id pages_to_fetch (pre ++ p :: post)).head? =
      some (Action.mkdirs (pathJoin RAW_DATA_PATH (bird_name_replace bird_name))) := by
  constructor
  · rw [process_species, process_species, List.foldl_append, List.foldl_append, List.foldl_cons]
    congr 1
    rcases hp with hp | hp | hp <;> subst hp <;> rfl
  · rfl

/-- Witness for C6: dropping one falsy page from a concrete run. -/
theorem C6_empty_page_contributes_nothing_witness :
    process_species "Northern Cardinal" ([] ++ none :: []) =
      process_species "Northern Cardinal" ([] ++ []) ∧
    (processSpeciesTrace "Northern Cardinal" 9 2 ([] ++ none :: [])).head? =
      some (Action.mkdirs (pathJoin RAW_DATA_PATH (bird_name_replace "Northern Cardinal"))) :=
  C6_empty_page_contributes_nothing "Northern Cardinal" 9 2 [] [] none (Or.inl rfl)

/-- C7: two runs over an identical species table with identical API
responses produce identical ledgers — in particular identical filenames, an
identical row list in the CSV and the same ledger path — and the same
number of download attempts, whatever each run's downloads do; the slug,
and with it every derived name, is a function of the species name alone. -/
theorem C7_determinism (birds1 birds2 : List SpeciesRow) (api1 api2 : PageQuery → FetchResult)
    (pages_to_fetch : Nat) (net1 net2 : DownloadTask → DownloadResponse)
    (hbirds : birds1 = birds2) (hapi : ∀ q, api1 q = api2 q) :
    (runPipeline birds1 api1 pages_to_fetch net1).all_licensing =
      (runPipeline birds2 api2 pages_to_fetch net2).all_licensing ∧
    ((runPipeline birds1 api1 pages_to_fetch net1).all_licensing.map (fun r => r.filename)) =
      ((runPipeline birds2 api2 pages_to_fetch net2).all_licensing.map (fun r => r.filename)) ∧
    (runPipeline birds1 api1 pages_to_fetch net1).downloadOutcomes.length =
      (runPipeline birds2 api2 pages_to_fetch net2).downloadOutcomes.length ∧
    (mainCsv birds1 api1 pages_to_fetch net1).path =
      (mainCsv birds2 api2 pages_to_fetch net2).path ∧
    (mainCsv birds1 api1 pages_to_fetch net1).rows =
      (mainCsv birds2 api2 pages_to_fetch net2).rows := by
  subst hbirds
  have hfun : api1 = api2 := funext hapi
  subst hfun
  refine ⟨rfl, rfl, ?_, rfl, rfl⟩
  rw [runPipeline_outcomes_length, runPipeline_outcomes_length]

/-- Witness for C7: the same one-species table and API oracle under two
different download oracles. -/
theorem C7_determinism_witness :
    (runPipeline [⟨"Northern Cardinal", 9⟩] sampleApi 2 failNet).all_licensing =
      (runPipeline [⟨"Northern Cardinal", 9⟩] sampleApi 2 okNet).all_licensing ∧
    ((runPipeline [⟨"Northern Cardinal", 9⟩] sampleApi 2 failNet).all_licensing.map (fun r => r.filename)) =
      ((runPipeline [⟨"Northern Cardinal", 9⟩] sampleApi 2 okNet).all_licensing.map (fun r => r.filename)) ∧
    (runPipeline [⟨"Northern Cardinal", 9⟩] sampleApi 2 failNet).downloadOutcomes.length =
      (runPipeline [⟨"Northern Cardinal", 9⟩] sampleApi 2 okNet).downloadOutcomes.length ∧
    (mainCsv [⟨"Northern Cardinal", 9⟩] sampleApi 2 failNet).path =
      (mainCsv [⟨"Northern Cardinal", 9⟩] sampleApi 2 okNet).path ∧
    (mainCsv [⟨"Northern Cardinal", 9⟩] sampleApi 2 failNet).rows =
      (mainCsv [⟨"Northern Cardinal", 9⟩] sampleApi 2 okNet).rows :=
  C7_determinism _ _ _ _ 2 _ _ rfl (fun _ => rfl)

/-- C8 counterexample: a run that discovers zero photos still writes the
single ledger file, but `pd.DataFrame([])` has no columns at all, so the
written ledger does not carry the seven documented columns (in either
order), contradicting the unconditional column clause of the claim. -/
theorem C8_columns_counterexample :
    (mainCsv [⟨"Northern Cardinal", 9⟩] noneApi 2 failNet).columns = [] ∧
    (mainCsv [⟨"Northern Cardinal", 9⟩] noneApi 2 failNet).columns ≠
      ["observation_id", "species", "photo_url", "medium_url", "license_code",
       "filename", "attribution"] ∧
    (mainCsv [⟨"Northern Cardinal", 9⟩] noneApi 2 failNet).columns ≠
      ["observation_id", "species", "photo_url", "medium_url", "license_code",
       "attribution", "filename"] := by
  decide

/-- C8 (amended): exactly one ledger file is written, at
`RAW_DATA_PATH/attribution_credit.csv`, with one row per discovered photo
across all species; whenever at least one photo was discovered its columns
are exactly `observation_id, species, photo_url, medium_url, license_code,
attribution, filename` (the stable dict-insertion order of the source); a
run with zero discovered photos still writes the file but with no
columns. -/
theorem C8_single_ledger (birds : List SpeciesRow) (api : PageQuery → FetchResult)
    (pages_to_fetch : Nat) (net : DownloadTask → DownloadResponse)
    (h : (runPipeline birds api pages_to_fetch net).all_licensing ≠ []) :
    (mainCsv birds api pages_to_fetch net).path =
      pathJoin RAW_DATA_PATH "attribution_credit.csv" ∧
    (mainCsv birds api pages_to_fetch net).columns =
      ["observation_id", "species", "photo_url", "medium_url", "license_code",
       "attribution", "filename"] ∧
    (mainCsv birds api pages_to_fetch net).rows.length =
      (birds.map (fun row =>
        (keptPhotos (fetchResultsFor api row.taxon_id pages_to_fetch)).length)).sum := by
  refine ⟨rfl, ?_, ?_⟩
  · show dataFrameColumns ((runPipeline birds api pages_to_fetch net).all_licensing.map recordRow) = _
    exact dataFrameColumns_uniform _ h
  · show ((runPipeline birds api pages_to_fetch net).all_licensing.map _).length = _
    rw [List.length_map, runPipeline_all_licensing, List.length_flatten, List.map_map]
    have hmap : ((fun l : List LicensingRecord => l.length) ∘
        (fun row => (processSpeciesRun api pages_to_fetch row).licensing_metadata)) =
        (fun row => (keptPhotos (fetchResultsFor api row.taxon_id pages_to_fetch)).length) := by
      funext row
      exact process_species_records_length row.bird_name _
    rw [hmap]

/-- Witness for C8 (amended): a concrete run that discovers two photos
(one per fetched page). -/
theorem C8_single_ledger_witness :
    (mainCsv [⟨"Northern Cardinal", 9⟩] sampleApi 2 okNet).path =
      pathJoin RAW_DATA_PATH "attribution_credit.csv" ∧
    (mainCsv [⟨"Northern Cardinal", 9⟩] sampleApi 2 okNet).columns =
      ["observation_id", "species", "photo_url", "medium_url", "license_code",
       "attribution", "filename"] ∧
    (mainCsv [⟨"Northern Cardinal", 9⟩] sampleApi 2 okNet).rows.length =
      (([⟨"Northern Cardinal", 9⟩] : List SpeciesRow).map (fun row =>
        (keptPhotos (fetchResultsFor sampleApi row.taxon_id 2)).length)).sum :=
  C8_single_ledger [⟨"Northern Cardinal", 9⟩] sampleApi 2 okNet (by decide)

/-- C9: the merged ledger is the concatenation of the per-species record
lists in species-table row order — `asyncio.gather` returns the gathered
results in task submission order, which is the `iterrows` order of the
species table. -/
theorem C9_ledger_in_table_order (birds : List SpeciesRow) (api : PageQuery → FetchResult)
    (pages_to_fetch : Nat) (net : DownloadTask → DownloadResponse) :
    (runPipeline birds api pages_to_fetch net).all_licensing =
      (birds.map (fun row => (processSpeciesRun api pages_to_fetch row).licensing_metadata)).flatten :=
  runPipeline_all_licensing birds api pages_to_fetch net

/-- C10: every emitted record defaults its missing optional source fields —
absent `license_code` becomes `unknown`, absent `attribution`,
`species_guess` and `id` become the empty string — and the record's
`filename` is the bare basename, while the corresponding download task
writes to that basename joined under the species directory. -/
theorem C10_defaults_and_basename (bird_name : String) (results : List FetchResult) :
    (∀ r ∈ (process_species bird_name results).licensing_metadata,
      ∃ op, op ∈ encounteredPhotos results ∧ op.2.url.getD "" ≠ "" ∧
        r.observation_id = op.1.id.getD "" ∧
        r.species = op.1.species_guess.getD "" ∧
        r.license_code = op.2.license_code.getD "unknown" ∧
        r.attribution = op.2.attribution.getD "" ∧
        ∃ idx, r.filename = basenameFor (bird_name_replace bird_name) idx) ∧
    (process_species bird_name results).image_download_tasks =
      (process_species bird_name results).licensing_metadata.map
        (fun r => ⟨r.medium_url,
          pathJoin (pathJoin RAW_DATA_PATH (bird_name_replace bird_name)) r.filename⟩) := by
  constructor
  · intro r hr
    rw [process_species_char] at hr
    obtain ⟨op, hmem, hkept, j, rfl⟩ := pairRecords_mem _ _ _ _ hr
    simp only [keptB, bne_iff_ne, ne_eq] at hkept
    exact ⟨op, hmem, hkept, rfl, rfl, rfl, rfl, j, rfl⟩
  · rw [process_species_char]
    show pairTasks _ _ 1 _ = (pairRecords _ 1 _).map _
    rw [pairTasks_eq_map]

/-- Witness for C10 at a photo lacking `license_code` and `attribution`
inside an observation lacking `id` and `species_guess`. -/
theorem C10_defaults_and_basename_witness :
    ∃ op, op ∈ encounteredPhotos [barePage] ∧ op.2.url.getD "" ≠ "" ∧
      bareRecord.observation_id = op.1.id.getD "" ∧
      bareRecord.species = op.1.species_guess.getD "" ∧
      bareRecord.license_code = op.2.license_code.getD "unknown" ∧
      bareRecord.attribution = op.2.attribution.getD "" ∧
      ∃ idx, bareRecord.filename = basenameFor (bird_name_replace "Wood Stork") idx :=
  (C10_defaults_and_basename "Wood Stork" [barePage]).1 bareRecord (by decide)

end FetchImages
